import Mathlib

/-!
Verification development for the mree song-acquisition backend.

This file gives a shallow embedding, in Lean, of the core logic of the
backend: the download-status data model, the rate-limiting middleware
(`app/middleware/rate_limiting.py`), the Spotify-id validator
(`app/utils/validation.py`), the intake handler
(`app/routers/search.py`, `request_download`), the Celery download task
(`app/tasks.py`, `download_song`), the download service with its
file-based lock (`app/services/download_service.py`), and the
stuck-download reclaimer (`app/tasks.py`, `cleanup_failed_downloads`).
Each definition is translated directly from the corresponding Python
function; theorems about the claims of the specification follow the
definitions.
-/

namespace Mree

/-- Download status of a catalog entry, as stored in the
`download_status` field of the Elasticsearch song document. -/
inductive DownloadStatus
  | pending
  | downloading
  | completed
  | failed
deriving DecidableEq, Repr

/-- A song document of the Elasticsearch `songs` index, restricted to the
fields the acquisition logic reads: `download_status`, `download_count`,
`updated_at` (seconds), and `file_path`. -/
structure SongDoc where
  spotify_id : String
  download_status : DownloadStatus
  download_count : Nat
  updated_at : Nat
  file_path : Option String
deriving DecidableEq, Repr

/-! ## Rate limiting (`app/middleware/rate_limiting.py`) -/

/-- One entry of the static rate-limit table: `requests` per `window` seconds. -/
structure RLConfig where
  requests : Nat
  window : Nat
deriving DecidableEq, Repr

/-- The static rate-limit table of `_get_rate_limit_config`, in source order. -/
def rate_limits : List (String × RLConfig) :=
  [("/api/v1/search", ⟨60, 60⟩),
   ("/api/v1/download", ⟨10, 60⟩),
   ("/api/v1/auth/login", ⟨5, 300⟩),
   ("/api/v1/auth/register", ⟨3, 3600⟩)]

/-- Python `endpoint.startswith(pattern)`, over the character sequences. -/
def starts_with (s pat : String) : Bool :=
  pat.toList.isPrefixOf s.toList

/-- `_get_rate_limit_config`: first pattern that the endpoint starts with wins. -/
def get_rate_limit_config (endpoint : String) : Option RLConfig :=
  (rate_limits.find? (fun p => starts_with endpoint p.1)).map (·.2)

/-- Redis `ZREMRANGEBYSCORE key lo hi`: drop members whose score lies in the
closed interval `[lo, hi]`.  The window sets store one member per whole
second, so a member is identified with its integer score. -/
def zremrangebyscore (s : List Int) (lo hi : Int) : List Int :=
  s.filter (fun t => !(lo ≤ t && t ≤ hi))

/-- Redis `ZADD key {str(t): t}`: adding an already-present member only
updates its score (here: a no-op), so the member set gains at most one
element. -/
def zadd (s : List Int) (t : Int) : List Int :=
  if t ∈ s then s else s ++ [t]

/-- Outcome of one `_check_rate_limit` call: the boolean decision, the
count the pipeline observed (`results[1]`, the cardinality after the
removal and before the add), and the resulting window set. -/
structure RLOutcome where
  allowed : Bool
  current : Nat
  state : List Int
deriving DecidableEq, Repr

/-- `_check_rate_limit`: atomically (pipeline) remove entries with score in
`[0, now - window]`, read the cardinality, add the current second, and
allow iff the observed count is below the limit.  Note the add is
unconditional: it happens also when the request is denied. -/
def check_rate_limit (s : List Int) (now : Int) (cfg : RLConfig) : RLOutcome :=
  let window_start : Int := now - (cfg.window : Int)
  let s1 := zremrangebyscore s 0 window_start
  let current := s1.length
  let s2 := zadd s1 now
  { allowed := decide (current < cfg.requests), current := current, state := s2 }

/-- Run a sequence of rate-limit checks at the given times, returning the
list of decisions and the final window set. -/
def run_requests (cfg : RLConfig) (s : List Int) : List Int → List Bool × List Int
  | [] => ([], s)
  | t :: ts =>
    let o := check_rate_limit s t cfg
    let r := run_requests cfg o.state ts
    (o.allowed :: r.1, r.2)

/-- Outcome of the `(n+1)`-th of a burst of checks all executed at the same
clock second `now`. -/
def iterate_checks (cfg : RLConfig) (s : List Int) (now : Int) : Nat → RLOutcome
  | 0 => check_rate_limit s now cfg
  | n + 1 => check_rate_limit (iterate_checks cfg s now n).state now cfg

/-- The 429 response built by `dispatch` on a rate-limit violation:
`retry_after` is the configured window. -/
structure RLResponse where
  status_code : Nat
  retry_after : Nat
deriving DecidableEq, Repr

/-- `dispatch`, denial branch: HTTP 429 with `retry_after = window`. -/
def rate_limit_exceeded_response (cfg : RLConfig) : RLResponse :=
  { status_code := 429, retry_after := cfg.window }

/-! ## Spotify-id validation (`app/utils/validation.py`) -/

/-- Python `value.strip()`: drop leading and trailing whitespace. -/
def strip_chars (l : List Char) : List Char :=
  ((l.dropWhile Char.isWhitespace).reverse.dropWhile Char.isWhitespace).reverse

/-- `validate_spotify_id`: strip whitespace, reject the empty string, then
require the pattern `^[0-9A-Za-z]{22}$`.  Returns `true` iff the id is
accepted. -/
def validate_spotify_id (value : String) : Bool :=
  let v := strip_chars value.toList
  if v = [] then false
  else decide (v.length = 22) && v.all Char.isAlphanum

/-! ## Intake handler (`app/routers/search.py`, `request_download`) -/

/-- The `status` field of the intake handler's response. -/
inductive IntakeStatus
  | already_owned
  | instant_add
  | downloading
  | queued
deriving DecidableEq, Repr

/-- Observable effect of one intake request: response status, the user
library (membership store) after the request, whether the shared
`download_count` was incremented, and whether a download task was enqueued. -/
structure IntakeResult where
  status : IntakeStatus
  lib_after : List (Nat × String)
  counter_incremented : Bool
  enqueued : Bool
deriving DecidableEq, Repr

/-- `request_download`: membership check first; then the catalog document
drives a four-way branch.  A membership row is inserted in every branch
except `already_owned`. -/
def request_download (lib : List (Nat × String)) (doc : Option SongDoc)
    (user : Nat) (sid : String) : IntakeResult :=
  if (user, sid) ∈ lib then
    { status := .already_owned, lib_after := lib,
      counter_incremented := false, enqueued := false }
  else
    match doc with
    | some d =>
      if d.download_status = DownloadStatus.completed then
        { status := .instant_add, lib_after := lib ++ [(user, sid)],
          counter_incremented := true, enqueued := false }
      else if d.download_status = DownloadStatus.pending ∨
              d.download_status = DownloadStatus.downloading then
        { status := .downloading, lib_after := lib ++ [(user, sid)],
          counter_incremented := false, enqueued := false }
      else
        { status := .queued, lib_after := lib ++ [(user, sid)],
          counter_incremented := false, enqueued := true }
    | none =>
      { status := .queued, lib_after := lib ++ [(user, sid)],
        counter_incremented := false, enqueued := true }

/-! ## Download task (`app/tasks.py`, `download_song`) -/

/-- Environment (oracle results) of one run of the Celery `download_song`
task.  `track_info_ok = false` models `get_track_sync` raising;
`step1_library_throws` / `step5_library_throws` model the PostgreSQL
library blocks raising; `service_success` is the `success` field of the
`download_song_sync` result dict (the service catches its own errors and
never raises). -/
structure TaskEnv where
  existing_song : Option SongDoc
  already_in_library : Bool
  step1_library_throws : Bool
  track_info_ok : Bool
  service_success : Bool
  step5_library_throws : Bool
  retries : Nat

/-- Value returned by the task: either a normal return (completed /
failed / error dict) or a `self.retry(countdown)` raise. -/
inductive TaskResult
  | completed
  | failed
  | retry (countdown : Nat)
  | error
deriving DecidableEq, Repr

/-- Observable outcome of one task run: the result, the sequence of
catalog-status writes (previous status, written status), and whether the
shared download counter was incremented. -/
structure TaskOutcome where
  result : TaskResult
  writes : List (Option DownloadStatus × DownloadStatus)
  counter_incremented : Bool
deriving DecidableEq, Repr

/-- `max_retries=3` of the `@celery_app.task` decorator. -/
def max_retries : Nat := 3

/-- The `except` block of the task: write `failed` over whatever status
the document currently has (an upsert, so it also creates the document),
then retry with countdown `60 * 2 ** retries` while retries remain. -/
def task_except_handler (env : TaskEnv)
    (writes : List (Option DownloadStatus × DownloadStatus))
    (cur : Option DownloadStatus) : TaskOutcome :=
  let writes := writes ++ [(cur, DownloadStatus.failed)]
  if env.retries < max_retries then
    { result := TaskResult.retry (60 * 2 ^ env.retries), writes := writes,
      counter_incremented := false }
  else
    { result := TaskResult.error, writes := writes, counter_incremented := false }

/-- Steps 3-5 of the task: run the download service; on `success` write
`completed` (the document was last written `downloading` by step 2) and
add the library row (which may raise into the except block); otherwise
write `failed`. -/
def task_step3 (env : TaskEnv)
    (w1 : List (Option DownloadStatus × DownloadStatus)) : TaskOutcome :=
  if env.service_success then
    let w2 := w1 ++ [(some DownloadStatus.downloading, DownloadStatus.completed)]
    if env.step5_library_throws then
      task_except_handler env w2 (some DownloadStatus.completed)
    else
      { result := TaskResult.completed, writes := w2, counter_incremented := false }
  else
    { result := TaskResult.failed,
      writes := w1 ++ [(some DownloadStatus.downloading, DownloadStatus.failed)],
      counter_incremented := false }

/-- The Celery `download_song` task.  Step 1: an already-`completed`
document short-circuits to library registration.  Step 2: a missing
document is created with status `downloading` after the Spotify metadata
lookup (which may raise); an existing non-completed document is updated
to `downloading`.  Steps 3-5 are `task_step3`; any raise lands in
`task_except_handler`. -/
def download_song_task (env : TaskEnv) : TaskOutcome :=
  match env.existing_song with
  | some d =>
    if d.download_status = DownloadStatus.completed then
      if env.step1_library_throws then
        task_except_handler env [] (some DownloadStatus.completed)
      else
        { result := TaskResult.completed, writes := [],
          counter_incremented := !env.already_in_library }
    else
      task_step3 env [(some d.download_status, DownloadStatus.downloading)]
  | none =>
    if env.track_info_ok then
      task_step3 env [((none : Option DownloadStatus), DownloadStatus.downloading)]
    else
      task_except_handler env [] none

/-- Countdown of the `self.retry` raise, if the task run raised one. -/
def task_retry_countdown (o : TaskOutcome) : Option Nat :=
  match o.result with
  | TaskResult.retry c => some c
  | _ => none

/-- The task raises an exception iff one of its fallible blocks raises on
the path actually taken.  The download service never raises: its
failures only make `service_success` false. -/
def task_raises (env : TaskEnv) : Bool :=
  match env.existing_song with
  | some d =>
    if d.download_status = DownloadStatus.completed then env.step1_library_throws
    else env.service_success && env.step5_library_throws
  | none =>
    !env.track_info_ok || (env.service_success && env.step5_library_throws)

/-! ## Download service (`app/services/download_service.py`, `download_song`) -/

/-- `ElasticsearchService.song_exists`: the song exists iff its document
is present and the file at the document's `file_path` (default `""`)
exists on disk (`fs` is the file-system predicate). -/
def song_exists (doc : Option SongDoc) (fs : String → Bool) : Bool :=
  match doc with
  | none => false
  | some s => fs (s.file_path.getD "")

/-- The lock-conflict wait loop (`for _ in range(30): await sleep(1); if
exists: return True`), started at second `t` with `n` attempts left. -/
def wait_loop_aux (obs : Nat → Bool) : Nat → Nat → Bool
  | _, 0 => false
  | t, n + 1 => if obs t then true else wait_loop_aux obs (t + 1) n

/-- The full wait loop: attempts at seconds 1..30. -/
def wait_loop (obs : Nat → Bool) : Bool :=
  wait_loop_aux obs 1 30

/-- Environment of one run of `DownloadService.download_song`:
`lock_exists` is whether another worker's lock file is present when
`touch(exist_ok=False)` runs; `doc_at t` is the catalog document seen by
the `song_exists` call at second `t`; `fs` is the file-system predicate;
the remaining flags are the outcomes of the Spotify lookup, the YouTube
search, the audio fetch, the `shutil.move`, and the final
`update_song`. -/
structure ServiceEnv where
  lock_exists : Bool
  doc_at : Nat → Option SongDoc
  fs : String → Bool
  track_details_ok : Bool
  youtube_url_ok : Bool
  download_ok : Bool
  move_ok : Bool
  es_update_ok : Bool

/-- Observable outcome of one service run: the returned boolean, whether
the lock file for this id is still present, whether the run reached the
media fetch (`_download_audio`), and the statuses it wrote. -/
structure ServiceOutcome where
  result : Bool
  lock_present_after : Bool
  reached_fetch : Bool
  writes : List DownloadStatus
deriving DecidableEq, Repr

/-- The `try` body of `download_song`, with `lock_present_after` as the
lock state when control reaches the `finally` block.  In the
`FileExistsError` branch the other worker's lock is still present; in
the acquire branch this worker's lock is present except after the
explicit early unlink of the already-downloaded fast path. -/
def service_body (env : ServiceEnv) : ServiceOutcome :=
  if env.lock_exists then
    { result := wait_loop (fun t => song_exists (env.doc_at t) env.fs),
      lock_present_after := true, reached_fetch := false, writes := [] }
  else if song_exists (env.doc_at 0) env.fs then
    { result := true, lock_present_after := false, reached_fetch := false, writes := [] }
  else if !env.track_details_ok then
    { result := false, lock_present_after := true, reached_fetch := false,
      writes := [DownloadStatus.downloading, DownloadStatus.failed] }
  else if !env.youtube_url_ok then
    { result := false, lock_present_after := true, reached_fetch := false,
      writes := [DownloadStatus.downloading, DownloadStatus.failed] }
  else if !env.download_ok then
    { result := false, lock_present_after := true, reached_fetch := true,
      writes := [DownloadStatus.downloading, DownloadStatus.failed] }
  else if !env.move_ok then
    { result := false, lock_present_after := true, reached_fetch := true,
      writes := [DownloadStatus.downloading, DownloadStatus.failed] }
  else if env.es_update_ok then
    { result := true, lock_present_after := true, reached_fetch := true,
      writes := [DownloadStatus.downloading, DownloadStatus.completed] }
  else
    { result := false, lock_present_after := true, reached_fetch := true,
      writes := [DownloadStatus.downloading, DownloadStatus.failed] }

/-- `download_song` with its `finally` block applied: `lock_path.unlink
(missing_ok=True)` runs on every exit path, so the lock file is removed
whether or not this execution created it. -/
def download_song_service (env : ServiceEnv) : ServiceOutcome :=
  let o := service_body env
  { o with lock_present_after := false }

/-! ## Interleaved executions of the service (dedup analysis)

A small-step machine for several concurrent `download_song` executions
on the same spotify id.  The shared state is the lock file, the catalog
document and the final storage file; each job is a program counter over
the atomic steps of the service (provider calls assumed successful).
-/

/-- Shared state of the interleaving machine: lock file present, catalog
document status, final media file present. -/
structure MState where
  lock : Bool
  doc : Option DownloadStatus
  file_present : Bool
deriving DecidableEq, Repr

/-- `song_exists` as seen by the machine: document present and media file
on disk. -/
def m_song_exists (g : MState) : Bool :=
  g.doc.isSome && g.file_present

/-- Program counter of one job running `download_song`.  `wait k` is the
conflict wait loop with `k` attempts left; `unlink r` is the `finally`
unlink before returning `r`. -/
inductive JPC
  | start
  | wait (k : Nat)
  | check
  | write_downloading
  | fetch
  | move
  | write_completed
  | unlink (r : Bool)
  | done (r : Bool)
deriving DecidableEq, Repr

/-- One atomic step of a job.  The returned boolean flags a media-fetch
event (the job invoking `_download_audio`). -/
def jstep (g : MState) : JPC → MState × JPC × Bool
  | .start =>
    if g.lock then (g, .wait 30, false)
    else ({ g with lock := true }, .check, false)
  | .wait 0 => (g, .unlink false, false)
  | .wait (k + 1) =>
    if m_song_exists g then (g, .unlink true, false) else (g, .wait k, false)
  | .check =>
    if m_song_exists g then ({ g with lock := false }, .done true, false)
    else (g, .write_downloading, false)
  | .write_downloading =>
    ({ g with doc := some DownloadStatus.downloading }, .fetch, false)
  | .fetch => (g, .move, true)
  | .move => ({ g with file_present := true }, .write_completed, false)
  | .write_completed =>
    ({ g with doc := some DownloadStatus.completed }, .unlink true, false)
  | .unlink r => ({ g with lock := false }, .done r, false)
  | .done r => (g, .done r, false)

/-- State of an interleaved run: shared state, each job's program
counter, and the number of media-fetch events so far. -/
structure RunState where
  global : MState
  jobs : List JPC
  fetches : Nat
deriving DecidableEq, Repr

/-- Advance job `i` by one atomic step. -/
def sched_step (rs : RunState) (i : Nat) : RunState :=
  match rs.jobs.get? i with
  | none => rs
  | some pc =>
    let r := jstep rs.global pc
    { global := r.1, jobs := rs.jobs.set i r.2.1,
      fetches := rs.fetches + (if r.2.2 then 1 else 0) }

/-- Run a schedule: a list of job indices, each advancing that job one
atomic step. -/
def run_sched (rs : RunState) (sched : List Nat) : RunState :=
  sched.foldl sched_step rs

/-! ## Stuck-download reclaimer (`app/tasks.py`, `cleanup_failed_downloads`) -/

/-- The selection predicate of the sweep's Elasticsearch query:
`download_status = downloading` and `updated_at` strictly older than
`now` minus one hour (`range lt` on the cutoff). -/
def stuck_query (now : Nat) (d : SongDoc) : Bool :=
  decide (d.download_status = DownloadStatus.downloading) &&
    decide (d.updated_at + 3600 < now)

/-- The per-hit reset (`update_song_status_sync(spotify_id, "pending")`):
status back to `pending` with a fresh `updated_at`. -/
def reset_entry (now : Nat) (d : SongDoc) : SongDoc :=
  { d with download_status := DownloadStatus.pending, updated_at := now }

/-- One sweep with `budget` result slots left.  The sweep's query passes no
`size`, so Elasticsearch returns at most its default page size of 10
hits: only the first `budget` matching entries (in catalog order) are
reset, the remaining matches are left untouched. -/
def sweep_aux (now : Nat) : Nat → List SongDoc → List SongDoc
  | _, [] => []
  | budget, d :: ds =>
    if stuck_query now d then
      match budget with
      | 0 => d :: sweep_aux now 0 ds
      | b + 1 => reset_entry now d :: sweep_aux now b ds
    else d :: sweep_aux now budget ds

/-- The Elasticsearch default result size: the sweep's query body has no
`size` field, so `es.search` returns at most 10 hits. -/
def es_default_size : Nat := 10

/-- `cleanup_failed_downloads`: one sweep over the catalog at time `now`,
resetting at most `es_default_size` stale downloading entries. -/
def cleanup_failed_downloads (catalog : List SongDoc) (now : Nat) : List SongDoc :=
  sweep_aux now es_default_size catalog

/-- The legal status transitions from the specification's state machine
(`pending→downloading`, `downloading→completed`, `downloading→failed`,
`failed→pending`). -/
def allowedTransition : DownloadStatus → DownloadStatus → Bool
  | .pending, .downloading => true
  | .downloading, .completed => true
  | .downloading, .failed => true
  | .failed, .pending => true
  | _, _ => false

/-! ## Concrete environments used by the claim theorems -/

/-- Task environment for a new song where the metadata lookup and the
download both succeed, but the step-5 library insert raises a database
error on the first attempt. -/
def envC2 : TaskEnv :=
  { existing_song := none, already_in_library := false,
    step1_library_throws := false, track_info_ok := true,
    service_success := true, step5_library_throws := true, retries := 0 }

/-- Service environment where everything succeeds up to the fetch, and the
`shutil.move` to final storage fails. -/
def envMoveFail : ServiceEnv :=
  { lock_exists := false, doc_at := fun _ => none, fs := fun _ => false,
    track_details_ok := true, youtube_url_ok := true, download_ok := true,
    move_ok := false, es_update_ok := true }

/-- Task environment whose download-service result is the (failed) outcome
of `envMoveFail`. -/
def envC5 : TaskEnv :=
  { existing_song := none, already_in_library := false,
    step1_library_throws := false, track_info_ok := true,
    service_success := (download_song_service envMoveFail).result,
    step5_library_throws := false, retries := 0 }

/-- A catalog document stuck in `downloading` whose media file is already
on disk. -/
def docC6 : SongDoc :=
  { spotify_id := "x", download_status := DownloadStatus.downloading,
    download_count := 1, updated_at := 0, file_path := some "/music/xy/x.mp3" }

/-- File system containing exactly the media file of `docC6`. -/
def fsC6 : String → Bool := fun p => p == "/music/xy/x.mp3"

/-- The login rate-limit configuration (5 requests per 300 seconds). -/
def loginCfg : RLConfig := ⟨5, 300⟩

/-- An entry stuck in `downloading`, last updated 90 minutes before the
sweep at second 6000. -/
def staleC8 : SongDoc :=
  { spotify_id := "a", download_status := DownloadStatus.downloading,
    download_count := 0, updated_at := 600, file_path := none }

/-- An entry in `downloading`, last updated 10 minutes before the sweep
at second 6000. -/
def freshC8 : SongDoc :=
  { spotify_id := "b", download_status := DownloadStatus.downloading,
    download_count := 0, updated_at := 5400, file_path := none }

/-- Schedule exhibiting a duplicate fetch: job 0 acquires the lock and
starts downloading; job 1 hits the conflict, exhausts its 30 wait
attempts and removes job 0's lock in its `finally` block; job 2 then
acquires the freed lock and fetches while job 0 is still fetching. -/
def schedC1 : List Nat :=
  [0, 1, 0, 0] ++ List.replicate 30 1 ++ [1, 1, 2, 2, 2, 2, 0]

/-- Initial state for three concurrent jobs on the same id: no lock, no
catalog document, no file. -/
def initC1 : RunState :=
  { global := { lock := false, doc := none, file_present := false },
    jobs := [JPC.start, JPC.start, JPC.start], fetches := 0 }

/-! ## Claim theorems -/

/-- Claim C1 (code bug): with three overlapping acquisition requests for
the same external id, the schedule `schedC1` drives two distinct jobs to
the media fetch step — the waiter's `finally` block deletes the holder's
lock, letting a third request re-acquire it mid-download.  The claimed
"exactly one job reaches the Media Source fetch step" is violated by
this execution of the code. -/
theorem c1_duplicate_fetch : (run_sched initC1 schedC1).fetches = 2 := by
  decide

/-- Claim C2 (code bug): in environment `envC2` (new song, successful
download, step-5 library insert raises) the task writes `completed` and
then its exception handler overwrites it with `failed` — a
`completed → failed` transition, which the claim's transition list
forbids. -/
theorem c2_completed_overwritten_by_failed :
    (download_song_task envC2).writes =
      [((none : Option DownloadStatus), DownloadStatus.downloading),
       (some DownloadStatus.downloading, DownloadStatus.completed),
       (some DownloadStatus.completed, DownloadStatus.failed)]
    ∧ allowedTransition DownloadStatus.completed DownloadStatus.failed = false := by
  decide

/-- Claim C3, counterexample: a request by user 7 for an id with no
catalog entry at all adds the membership row immediately at intake (and
enqueues the download), refuting "a membership row for the requester is
added only once catalog status is terminal-success or already was". -/
theorem c3_membership_added_before_completion :
    (request_download [] none 7 "s").lib_after = [(7, "s")]
    ∧ (request_download [] none 7 "s").enqueued = true := by
  decide

/-- Claim C3, amended: the intake handler is a four-way branch; a
membership row is added whenever the user does not already own the
track, regardless of catalog status; the shared counter is incremented
exactly in the completed-catalog branch; a download is enqueued exactly
when the catalog entry is missing or `failed`. -/
theorem c3_intake_branches (lib : List (Nat × String)) (doc : Option SongDoc)
    (user : Nat) (sid : String) :
    ((request_download lib doc user sid).lib_after =
      if (user, sid) ∈ lib then lib else lib ++ [(user, sid)])
    ∧ ((request_download lib doc user sid).counter_incremented = true ↔
        (user, sid) ∉ lib ∧ doc.map (·.download_status) = some DownloadStatus.completed)
    ∧ ((request_download lib doc user sid).enqueued = true ↔
        (user, sid) ∉ lib ∧ (doc = none ∨
          doc.map (·.download_status) = some DownloadStatus.failed)) := by
  by_cases h : (user, sid) ∈ lib
  · simp [request_download, h]
  · cases doc with
    | none => simp [request_download, h]
    | some d =>
      cases hst : d.download_status <;>
        simp [request_download, h, hst]

/-- Claim C4, counterexample: with the login limit (5 per 300 s) and five
entries already in the window, the sixth check at second 1005 is denied
and yet records its timestamp in the window set — refuting "a denied
request records no entry". -/
theorem c4_denied_request_records_entry :
    (check_rate_limit [1000, 1001, 1002, 1003, 1004] 1005 loginCfg).allowed = false
    ∧ (1005 : Int) ∈ (check_rate_limit [1000, 1001, 1002, 1003, 1004] 1005 loginCfg).state := by
  decide

/-- Claim C4, amended: each check atomically drops the expired entries,
counts the remainder, records the current second unconditionally (also
when denied), and allows iff the pre-add count is below the limit.  The
boundary scenario holds: under the configured login limit (5, 300), five
requests at seconds 1000-1004 are allowed, the sixth at 1005 is denied
with a 429 carrying `retry_after = 300`, and a request 300 seconds after
the denial is allowed again. -/
theorem c4_rate_limit_behaviour :
    get_rate_limit_config "/api/v1/auth/login" = some loginCfg
    ∧ (∀ (s : List Int) (now : Int) (cfg : RLConfig),
        now ∈ (check_rate_limit s now cfg).state)
    ∧ (run_requests loginCfg [] [1000, 1001, 1002, 1003, 1004, 1005, 1305]).1 =
        [true, true, true, true, true, false, true]
    ∧ (rate_limit_exceeded_response loginCfg).retry_after = 300
    ∧ (rate_limit_exceeded_response loginCfg).status_code = 429 := by
  refine ⟨by decide, ?_, by decide, by decide, by decide⟩
  intro s now cfg
  simp only [check_rate_limit, zadd]
  split
  · assumption
  · simp

/-- Claim C5, counterexample: a file-move failure (step 6-7 of the
orchestration) makes the service report `success = False`; the task then
returns a failed status without any `self.retry` — refuting "a failure
in the media fetch or file-move steps is retried by the scheduler". -/
theorem c5_move_failure_not_retried :
    (download_song_service envMoveFail).reached_fetch = true
    ∧ (download_song_service envMoveFail).result = false
    ∧ (download_song_task envC5).result = TaskResult.failed
    ∧ task_retry_countdown (download_song_task envC5) = none := by
  decide

/-- Claim C5, amended: no failure reported by the download service
(metadata lookup, media locate, fetch, or move — the service catches
them all and returns `success = False`) is ever retried; the task
retries exactly when an exception escapes the task body (metadata lookup
raising during initial entry creation, or a library-database raise) and
fewer than 3 retries have been used, with countdown `60 * 2 ^ retries`
(60 s, 120 s, 240 s). -/
theorem c5_retry_policy (env : TaskEnv) :
    task_retry_countdown (download_song_task env) =
      if task_raises env ∧ env.retries < max_retries
      then some (60 * 2 ^ env.retries) else none := by
  cases henv : env.existing_song with
  | none =>
    cases htr : env.track_info_ok <;>
      cases hsv : env.service_success <;>
        cases h5 : env.step5_library_throws <;>
          by_cases hr : env.retries < max_retries <;>
            simp [download_song_task, task_step3, task_except_handler,
              task_retry_countdown, task_raises, henv, htr, hsv, h5, hr]
  | some d =>
    cases hst : d.download_status <;>
      cases h1 : env.step1_library_throws <;>
        cases hsv : env.service_success <;>
          cases h5 : env.step5_library_throws <;>
            by_cases hr : env.retries < max_retries <;>
              simp [download_song_task, task_step3, task_except_handler,
                task_retry_countdown, task_raises, henv, hst, h1, hsv, h5, hr]

/-- Claim C7 (code bug): the malformed external id `"abc"` fails
`validate_spotify_id`, yet the intake handler never calls the validator:
it reads the membership store, inserts a membership row and enqueues a
download for the malformed id instead of rejecting the request. -/
theorem c7_malformed_id_reaches_stores :
    validate_spotify_id "abc" = false
    ∧ (request_download [] none 1 "abc").lib_after = [(1, "abc")]
    ∧ (request_download [] none 1 "abc").enqueued = true := by
  decide

/-- Claim C10, counterexample: two checks in the same clock second 100,
starting from an empty window: the first reports count 0, the second
reports count 1 — the second check's count does reflect the first
same-second request, refuting "each such check's count does not reflect
the other same-second requests". -/
theorem c10_second_check_sees_first :
    (iterate_checks loginCfg [] 100 0).current = 0
    ∧ (iterate_checks loginCfg [] 100 1).current = 1 := by
  decide

/-- Helper: the member added by `zadd` is in the resulting set. -/
theorem zadd_mem_self (l : List Int) (t : Int) : t ∈ zadd l t := by
  rw [zadd]
  split
  · rename_i h
    exact h
  · exact List.mem_append.mpr (Or.inr (by simp))

/-- Helper: adding a member twice is the same as adding it once. -/
theorem zadd_zadd (l : List Int) (t : Int) : zadd (zadd l t) t = zadd l t := by
  have h := zadd_mem_self l t
  rw [zadd, if_pos h]

/-- Helper: characterization of the wait loop started at second `t` with
`n` attempts left. -/
theorem wait_loop_aux_iff (obs : Nat → Bool) (n t : Nat) :
    wait_loop_aux obs t n = true ↔ ∃ k, t ≤ k ∧ k < t + n ∧ obs k = true := by
  induction n generalizing t with
  | zero =>
    constructor
    · intro h
      simp [wait_loop_aux] at h
    · rintro ⟨k, h1, h2, _⟩
      omega
  | succ n ih =>
    by_cases h : obs t = true
    · constructor
      · intro _
        exact ⟨t, Nat.le_refl t, by omega, h⟩
      · intro _
        simp [wait_loop_aux, h]
    · have hrw : wait_loop_aux obs t (n + 1) = wait_loop_aux obs (t + 1) n := by
        simp [wait_loop_aux, h]
      rw [hrw, ih]
      constructor
      · rintro ⟨k, h1, h2, h3⟩
        exact ⟨k, by omega, by omega, h3⟩
      · rintro ⟨k, h1, h2, h3⟩
        refine ⟨k, ?_, by omega, h3⟩
        rcases Nat.eq_or_lt_of_le h1 with heq | hlt
        · exact absurd (heq ▸ h3) h
        · omega

/-- Claim C6, counterexample: the wait loop's per-attempt check is
`song_exists` — document present and media file on disk — not the status
field.  With a document stuck in `downloading` whose file is on disk,
the loop reports success on the first attempt although no attempt ever
observed a terminal `completed` status. -/
theorem c6_success_without_completed_status :
    wait_loop (fun _ => song_exists (some docC6) fsC6) = true
    ∧ docC6.download_status ≠ DownloadStatus.completed := by
  decide

/-- Claim C6, amended: on a lock conflict the caller polls at most 30
times, one second apart, and reports success exactly when one of
attempts 1..30 observes `song_exists` (catalog document present and its
`file_path` present on disk); otherwise it reports failure ("still in
progress"). -/
theorem c6_wait_loop_spec (doc_at : Nat → Option SongDoc) (fs : String → Bool) :
    wait_loop (fun t => song_exists (doc_at t) fs) = true ↔
      ∃ k, 1 ≤ k ∧ k ≤ 30 ∧ song_exists (doc_at k) fs = true := by
  rw [wait_loop, wait_loop_aux_iff]
  constructor <;> rintro ⟨k, h1, h2, h3⟩ <;> exact ⟨k, h1, by omega, h3⟩

/-- Helper: the selection predicate unfolded to its two conditions. -/
theorem stuck_query_eq_true {now : Nat} {d : SongDoc} :
    stuck_query now d = true ↔
      d.download_status = DownloadStatus.downloading ∧ d.updated_at + 3600 < now := by
  simp [stuck_query]

/-- Helper: pointwise description of one sweep with `budget` slots — entry
`i` is reset iff it matches the query and fewer than `budget` matching
entries precede it. -/
theorem sweep_aux_getElem_opt (now budget : Nat) (l : List SongDoc) (i : Nat) :
    (sweep_aux now budget l)[i]? =
      (l[i]?).map (fun d =>
        if stuck_query now d = true ∧ (l.take i).countP (stuck_query now) < budget
        then reset_entry now d else d) := by
  induction l generalizing budget i with
  | nil => simp [sweep_aux]
  | cons d ds ih =>
    by_cases hd : stuck_query now d = true
    · cases budget with
      | zero =>
        have hrw : sweep_aux now 0 (d :: ds) = d :: sweep_aux now 0 ds := by
          simp [sweep_aux, hd]
        cases i with
        | zero =>
          rw [hrw]
          simp
        | succ j =>
          rw [hrw]
          simp only [List.getElem?_cons_succ, List.take_succ_cons, List.countP_cons]
          rw [ih 0 j]
          cases hget : ds[j]? with
          | none => simp [hget]
          | some x => simp [hget, Nat.not_lt_zero]
      | succ b =>
        have hrw : sweep_aux now (b + 1) (d :: ds) = reset_entry now d :: sweep_aux now b ds := by
          simp [sweep_aux, hd]
        cases i with
        | zero =>
          rw [hrw]
          simp [hd]
        | succ j =>
          rw [hrw]
          simp only [List.getElem?_cons_succ, List.take_succ_cons, List.countP_cons]
          rw [ih b j]
          cases hget : ds[j]? with
          | none => simp [hget]
          | some x =>
            have hcc : (stuck_query now x = true ∧ (ds.take j).countP (stuck_query now) < b)
                ↔ (stuck_query now x = true ∧
                    (ds.take j).countP (stuck_query now) + 1 < b + 1) := by
              constructor <;> rintro ⟨h1, h22⟩ <;> exact ⟨h1, by omega⟩
            simp only [hget, Option.map_some', hd, if_true]
            rw [if_congr hcc rfl rfl]
    · have hrw : sweep_aux now budget (d :: ds) = d :: sweep_aux now budget ds := by
        simp [sweep_aux, hd]
      cases i with
      | zero =>
        rw [hrw]
        simp [hd]
      | succ j =>
        rw [hrw]
        simp only [List.getElem?_cons_succ, List.take_succ_cons, List.countP_cons]
        rw [ih budget j]
        simp [hd]

/-- Claim C8, counterexample: with eleven catalog entries all stuck in
`downloading` and 90 minutes stale, one sweep at second 6000 leaves the
eleventh entry in `downloading` — the query returns only the
Elasticsearch default of 10 hits — refuting "one reclaimer sweep resets
it to pending if and only if its status is downloading and its
updated_at is older than the 1-hour threshold". -/
theorem c8_eleventh_stale_not_reset :
    ((cleanup_failed_downloads (List.replicate 11 staleC8) 6000).get ⟨10, by decide⟩).download_status
        = DownloadStatus.downloading
    ∧ staleC8.download_status = DownloadStatus.downloading
    ∧ staleC8.updated_at + 3600 < 6000 := by
  decide

/-- Claim C8, amended: one reclaimer sweep resets a catalog entry to
`pending` iff it is `downloading`, strictly older than the one-hour
staleness threshold, and among the first 10 such entries — the sweep's
query sets no result size, so Elasticsearch returns at most its default
page of 10 hits per sweep; every other entry keeps its status (an entry
already `pending` stays `pending`). -/
theorem c8_reclaimer_resets_iff (catalog : List SongDoc) (now i : Nat)
    (h : i < catalog.length) (h2 : i < (cleanup_failed_downloads catalog now).length) :
    (cleanup_failed_downloads catalog now)[i].download_status = DownloadStatus.pending ↔
      (catalog[i].download_status = DownloadStatus.downloading ∧
        catalog[i].updated_at + 3600 < now ∧
        (catalog.take i).countP (stuck_query now) < es_default_size) ∨
      catalog[i].download_status = DownloadStatus.pending := by
  simp only [cleanup_failed_downloads] at h2 ⊢
  have heq : (sweep_aux now es_default_size catalog)[i] =
      (if stuck_query now catalog[i] = true ∧
          (catalog.take i).countP (stuck_query now) < es_default_size
       then reset_entry now catalog[i] else catalog[i]) := by
    have hq := sweep_aux_getElem_opt now es_default_size catalog i
    rw [List.getElem?_eq_getElem h2, List.getElem?_eq_getElem h] at hq
    simpa using hq
  rw [heq]
  split
  · rename_i hc
    obtain ⟨hs, hcount⟩ := hc
    obtain ⟨hA, hB⟩ := stuck_query_eq_true.mp hs
    constructor
    · intro _
      exact Or.inl ⟨hA, hB, hcount⟩
    · intro _
      rfl
  · rename_i hc
    constructor
    · intro hp
      exact Or.inr hp
    · rintro (⟨hA, hB, hC⟩ | hp)
      · exact absurd ⟨stuck_query_eq_true.mpr ⟨hA, hB⟩, hC⟩ hc
      · exact hp

/-- Witness for C8: in one sweep at second 6000, the 90-minute-old
downloading entry is reset to `pending` while the 10-minute-old one is
left untouched. -/
theorem c8_reclaimer_witness :
    ((cleanup_failed_downloads [staleC8, freshC8] 6000).get ⟨0, by decide⟩).download_status =
        DownloadStatus.pending
    ∧ (cleanup_failed_downloads [staleC8, freshC8] 6000).get ⟨1, by decide⟩ = freshC8 := by
  constructor
  · exact (c8_reclaimer_resets_iff [staleC8, freshC8] 6000 0 (by decide) (by decide)).mpr
      (Or.inl ⟨by decide, by decide, by decide⟩)
  · decide

/-- Claim C9: every terminating execution of the service's
`download_song` leaves the lock file absent — the `finally` block
unlinks it on every exit path.  In particular in the `FileExistsError`
branch the other worker's lock is still present when the `finally` block
runs, so a non-holder also removes the (holder's) lock on exit. -/
theorem c9_lock_always_unlinked (env : ServiceEnv) :
    (download_song_service env).lock_present_after = false
    ∧ (service_body { env with lock_exists := true }).lock_present_after = true := by
  exact ⟨rfl, rfl⟩

/-- Claim C10, amended: within one clock second, any burst of checks
grows the window set by at most one member — after the first check the
set is exactly the filtered set plus the single member `now`, and stays
so — and every check from the second one on reports the same count (the
filtered count plus at most one), however many same-second checks
precede it. -/
theorem c10_same_second_burst (cfg : RLConfig) (s : List Int) (now : Int)
    (hw : 0 < cfg.window) (n : Nat) :
    (iterate_checks cfg s now n).state =
      zadd (zremrangebyscore s 0 (now - (cfg.window : Int))) now
    ∧ (iterate_checks cfg s now (n + 1)).current =
        (zadd (zremrangebyscore s 0 (now - (cfg.window : Int))) now).length := by
  have hnow : (!(0 ≤ now && now ≤ now - (cfg.window : Int))) = true := by
    have hwi : (1 : Int) ≤ (cfg.window : Int) := by exact_mod_cast hw
    simp only [Bool.not_eq_true', Bool.and_eq_false_iff, decide_eq_false_iff_not, not_le]
    omega
  have hstable :
      zremrangebyscore (zadd (zremrangebyscore s 0 (now - (cfg.window : Int))) now)
          0 (now - (cfg.window : Int)) =
        zadd (zremrangebyscore s 0 (now - (cfg.window : Int))) now := by
    apply List.filter_eq_self.mpr
    intro a ha
    simp only [zadd] at ha
    rcases (by
      split at ha
      · exact Or.inl ha
      · rcases List.mem_append.mp ha with h1 | h1
        · exact Or.inl h1
        · exact Or.inr (List.mem_singleton.mp h1) :
        a ∈ zremrangebyscore s 0 (now - (cfg.window : Int)) ∨ a = now) with hmem | rfl
    · have hmem' : a ∈ (s.filter (fun t => !(0 ≤ t && t ≤ now - (cfg.window : Int)))) := by
        simpa [zremrangebyscore] using hmem
      exact (List.mem_filter.mp hmem').2
    · exact hnow
  have key : ∀ m, (iterate_checks cfg s now m).state =
      zadd (zremrangebyscore s 0 (now - (cfg.window : Int))) now := by
    intro m
    induction m with
    | zero => rfl
    | succ m ih =>
      show (check_rate_limit (iterate_checks cfg s now m).state now cfg).state = _
      rw [ih]
      show zadd (zremrangebyscore _ 0 _) now = _
      rw [hstable, zadd_zadd]
  refine ⟨key n, ?_⟩
  show (check_rate_limit (iterate_checks cfg s now n).state now cfg).current = _
  rw [key n]
  show (zremrangebyscore _ 0 _).length = _
  rw [hstable]

/-- Witness for the amended C10, at the login configuration, an empty
window and a burst at second 100. -/
theorem c10_same_second_burst_witness :
    0 < loginCfg.window
    ∧ ((iterate_checks loginCfg [] 100 2).state =
          zadd (zremrangebyscore [] 0 (100 - (loginCfg.window : Int))) 100
        ∧ (iterate_checks loginCfg [] 100 3).current =
            (zadd (zremrangebyscore [] 0 (100 - (loginCfg.window : Int))) 100).length) :=
  ⟨by decide, c10_same_second_burst loginCfg [] 100 (by decide) 2⟩

end Mree
